import Mathlib

set_option autoImplicit false

/-!
Verification development for the linkedin-ai-scraper repository.

The Python sources are shallowly embedded: external effects (the psql
subprocess, the Selenium driver, the LLM call) are modelled by explicit
oracle values describing the outcome the external world produced, and each
Python function becomes a total Lean function of those oracles.  The
orchestrator `main` of src/linkedin_agent/run_agent.py is embedded as a
trace function: given a world of oracle outcomes it returns the list of
observable effects (driver setup, login, search, dedup checks, fetches,
analyses, persistence calls, pagination, teardown) in order.
-/

namespace LinkedInScraper

/-! ## String helpers (substring and query-stripping, used by the embedding) -/

/-- Is `p` a prefix of `s` (on character lists)? -/
def listIsPref : List Char → List Char → Bool
  | [], _ => true
  | _ :: _, [] => false
  | p :: ps, c :: cs => p == c && listIsPref ps cs

/-- Does `s` contain `pat` as a contiguous sublist? -/
def listHasSub (pat : List Char) : List Char → Bool
  | [] => pat.isEmpty
  | c :: cs => listIsPref pat (c :: cs) || listHasSub pat cs

/-- Python `pat in s` on strings: substring containment. -/
def strHasSub (s pat : String) : Bool := listHasSub pat.data s.data

/-- The characters of `s` before the first occurrence of `'?'`. -/
def charsBeforeQ : List Char → List Char
  | [] => []
  | c :: cs => if c = '?' then [] else c :: charsBeforeQ cs

/-- Python `s.split('?')[0]`: everything before the first question mark. -/
def stripQuery (s : String) : String := String.mk (charsBeforeQ s.data)

/-- Python whitespace as stripped by `str.strip()`. -/
def isPyWs (c : Char) : Bool :=
  c == ' ' || c == '\t' || c == '\n' || c == '\r' || c == '\x0b' || c == '\x0c'

/-- Python `s.strip()`: drop whitespace from both ends. -/
def pyStrip (s : String) : String :=
  String.mk ((((s.data.dropWhile isPyWs).reverse).dropWhile isPyWs).reverse)

/-- ASCII lowering of one character (the letters relevant here). -/
def lowerChar (c : Char) : Char :=
  if c == 'A' then 'a' else if c == 'B' then 'b' else if c == 'C' then 'c'
  else if c == 'D' then 'd' else if c == 'E' then 'e' else if c == 'F' then 'f'
  else if c == 'G' then 'g' else if c == 'H' then 'h' else if c == 'I' then 'i'
  else if c == 'J' then 'j' else if c == 'K' then 'k' else if c == 'L' then 'l'
  else if c == 'M' then 'm' else if c == 'N' then 'n' else if c == 'O' then 'o'
  else if c == 'P' then 'p' else if c == 'Q' then 'q' else if c == 'R' then 'r'
  else if c == 'S' then 's' else if c == 'T' then 't' else if c == 'U' then 'u'
  else if c == 'V' then 'v' else if c == 'W' then 'w' else if c == 'X' then 'x'
  else if c == 'Y' then 'y' else if c == 'Z' then 'z' else c

/-- Python `s.lower()` (ASCII). -/
def pyLower (s : String) : String := String.mk (s.data.map lowerChar)

/-! ## Repository model (src/repository.py)

`run_psql_command` spawns a psql subprocess; the oracle records whether the
spawn raised, or the return code, stdout and stderr of the completed
process. -/

/-- Outcome of the psql subprocess run by `run_psql_command`. -/
inductive PsqlOutcome where
  | spawnError (msg : String)
  | completed (returncode : Int) (stdout : String) (stderr : String)
  deriving DecidableEq, Repr

/-- `run_psql_command` (src/repository.py lines 6-22): raises (error) when the
spawn raised or the return code is nonzero; otherwise strips the output and
returns `None` (here `Option.none`) when the stripped output is empty. -/
def run_psql_command (r : PsqlOutcome) : Except String (Option String) :=
  match r with
  | .spawnError msg => .error msg
  | .completed rc out err =>
    if rc ≠ 0 then .error ("psql command failed: " ++ err)
    else
      let output := pyStrip out
      if output = "" then .ok none else .ok (some output)

/-- `profile_url_exists` (src/repository.py lines 64-74): true iff the query
output strips and lowercases to `"t"`.  Every exception is caught and turned
into `False`: a failing psql command, and also the `AttributeError` raised by
`result.strip()` when `run_psql_command` returned `None` (empty output). -/
def profile_url_exists (r : PsqlOutcome) : Bool :=
  match run_psql_command r with
  | .error _ => false
  | .ok none => false
  | .ok (some s) => pyLower (pyStrip s) == "t"

/-- Mission parameters / mcp dicts: free-form key/value pairs. -/
abbrev Mcp := List (String × String)

/-- The shape of the `analysis_data` dict received by
`save_recruiter_analysis`.  The `alignment_score` key may be absent
(`analysis_data.get('alignment_score', 'NULL')` then yields SQL `NULL`,
modelled as `none`). -/
structure AnalysisData where
  summary : String
  alignment_score : Option Int
  justification : String
  recommendation : String
  deriving DecidableEq, Repr

/-- A row of the `validated_recruiters` table. -/
structure RecruiterRecord where
  profile_url : String
  profile_text : String
  mcp_data : Mcp
  analysis_data : AnalysisData
  alignment_score : Option Int
  created_at : Nat
  deriving DecidableEq, Repr

/-- The `validated_recruiters` table. -/
abbrev Table := List RecruiterRecord

/-- The table's UNIQUE constraint on `profile_url`. -/
def urlUnique (t : Table) : Prop :=
  t.Pairwise (fun a b => a.profile_url ≠ b.profile_url)

/-- The `INSERT ... ON CONFLICT (profile_url) DO UPDATE` statement issued by
`save_recruiter_analysis`: replace the row holding the conflicting key, or
insert a new row when no row holds the key. -/
def upsertRow (r : RecruiterRecord) : Table → Table
  | [] => [r]
  | x :: xs =>
    if x.profile_url = r.profile_url then r :: xs else x :: upsertRow r xs

/-- `save_recruiter_analysis` (src/repository.py lines 76-101): builds the row
(text and the two JSON payloads from its arguments, `alignment_score` from
`analysis_data.get('alignment_score', 'NULL')`, `created_at` from
`CURRENT_TIMESTAMP`, here `now`) and upserts it on `profile_url`.  Any
exception (`dbOk = false`) is caught: the function returns `false` and the
table is unchanged. -/
def save_recruiter_analysis (profile_url profile_text : String) (mcp_data : Mcp)
    (analysis_data : AnalysisData) (now : Nat) (dbOk : Bool) (t : Table) :
    Bool × Table :=
  match dbOk with
  | true =>
    (true, upsertRow
      { profile_url := profile_url
        profile_text := profile_text
        mcp_data := mcp_data
        analysis_data := analysis_data
        alignment_score := analysis_data.alignment_score
        created_at := now } t)
  | false => (false, t)

/-- The job-schedule row returned by `get_job_schedule` (src/repository.py):
eight columns; `next_run_timestamp_ms` is read by the orchestrator through
`int(job_schedule.get('next_run_timestamp_ms') or 0)`, so an SQL NULL or
empty value (`none`) defaults to `0`; `mission_parameters` is the parsed
JSON dict or `None`. -/
structure JobSchedule where
  job_name : String
  is_active : String
  last_run_status : String
  last_run_message : String
  created_at : String
  updated_at : String
  next_run_timestamp_ms : Option Int
  mission_parameters : Option Mcp
  deriving DecidableEq, Repr

/-! ## Configuration model (src/linkedin_agent/config.py) -/

/-- The environment-provided configuration values read at module load.
`none` models an unset environment variable. -/
structure Config where
  linkedin_username : Option String
  linkedin_password : Option String
  db_host : String
  db_user : Option String
  db_name : Option String
  db_password : String
  deriving DecidableEq, Repr

/-- Python falsiness of a `os.getenv` result: unset (`None`) or empty. -/
def envMissing : Option String → Bool
  | none => true
  | some s => s == ""

/-- `get_checked_config` (src/linkedin_agent/config.py lines 29-44): raises a
`ValueError` (here `Except.error`) when the LinkedIn credentials or the
database credentials are missing; otherwise returns the config record. -/
def get_checked_config (c : Config) : Except String Config :=
  if envMissing c.linkedin_username || envMissing c.linkedin_password then
    .error "LinkedIn credentials (LINKEDIN_USERNAME, LINKEDIN_PASSWORD) are not set in the .env file."
  else if envMissing c.db_user || envMissing c.db_name then
    .error "Database credentials (DB_USER, DB_NAME) are not set in the .env file."
  else .ok c

/-! ## Selenium module model (src/linkedin_agent/linkedin_module.py) -/

/-- Oracle for one call of `scrape_full_profile_details`: what the browser
produced for the profile page.  `navOk = false` models `driver.get` or the
15-second wait for an `h1` raising (timeout / navigation failure); `h1` and
`headline` are the texts of the `//h1` and text-body-medium elements when
found (`none` models `NoSuchElementException`, which for these two elements
is not caught locally and reaches the outer handler); `about` and
`experience` are the optional section texts, whose absence is caught locally
and replaced by the empty string. -/
structure ProfilePage where
  navOk : Bool
  h1 : Option String
  headline : Option String
  about : Option String
  experience : Option String
  deriving DecidableEq, Repr

/-- `scrape_full_profile_details` (src/linkedin_agent/linkedin_module.py lines
149-179): returns the stripped concatenation of name, headline and the
optional about/experience sections, or `None` when any uncaught step raised
(navigation, the wait for `//h1`, the headline lookup). -/
def scrape_full_profile_details (p : ProfilePage) : Option String :=
  if p.navOk then
    match p.h1, p.headline with
    | some name, some headline =>
      let about_text := p.about.getD ""
      let experience_text := p.experience.getD ""
      some (("Name: " ++ name ++ "\nHeadline: " ++ headline ++ "\n\n"
        ++ about_text ++ "\n\n" ++ experience_text).trim)
    | _, _ => none
  else none

/-- Input model of the search-results container for
`extract_urls_from_current_page`: `none` when locating the container (or any
other step outside the per-element loop) raised; otherwise one entry per
`li` element of the container, holding the `href` of its first anchor whose
`href` contains the substring `/in/` (the XPath filter), or `none` when the
`li` has no such anchor (the `NoSuchElementException` branch, skipped). -/
abbrev ResultsPage := Option (List (Option String))

/-- The XPath condition of the source on an href, and the natural reading of
a LinkedIn profile link: the url contains the substring `/in/`. -/
def isProfileHref (s : String) : Bool := strHasSub s "/in/"

/-- The body of the extraction loop: skip an element without a matching
anchor; otherwise cut the href at the first `?` and append it unless it was
already collected (`if url not in urls`). -/
def addUrl (urls : List String) (item : Option String) : List String :=
  match item with
  | none => urls
  | some href =>
    let url := stripQuery href
    if url ∈ urls then urls else urls ++ [url]

/-- `extract_urls_from_current_page` (src/linkedin_agent/linkedin_module.py
lines 100-128): for each result element with a matching anchor, take the
href, cut it at the first `?` (`split('?')[0]`), and append it unless
already collected; on an extraction failure return the empty list. -/
def extract_urls_from_current_page (page : ResultsPage) : List String :=
  match page with
  | none => []
  | some items => items.foldl addUrl []

/-! ## Orchestrator model (src/linkedin_agent/run_agent.py)

`main` is embedded as a trace function: the world supplies the outcome of
each external interaction and `mainTrace` returns the ordered list of
observable effects the run performs. -/

/-- The Pydantic output model of the LLM analysis. -/
structure RecruiterAnalysis where
  summary : String
  alignment_score : Int
  justification : String
  recommendation : String
  deriving DecidableEq, Repr

/-- `analysis.model_dump()`: the analysis as the dict handed to
`save_recruiter_analysis` (its `alignment_score` key is always present). -/
def model_dump (a : RecruiterAnalysis) : AnalysisData :=
  { summary := a.summary
    alignment_score := some a.alignment_score
    justification := a.justification
    recommendation := a.recommendation }

/-- Observable effects of a run of `main`. -/
inductive Event where
  | driverSetup (ok : Bool)
  | fewShotFetch
  | login (ok : Bool)
  | search (ok : Bool)
  | extract (urls : List String)
  | existsCheck (url : String) (found : Bool)
  | fetch (url : String) (result : Option String)
  | analyze (url : String) (result : Option RecruiterAnalysis)
  | persist (url : String)
  | nextPage (ok : Bool)
  | quit
  deriving DecidableEq, Repr

/-- Oracle for the per-link step of `main`: the outcome of the dedup check
`profile_url_exists(url)`, of `scrape_full_profile_details` and of
`analyze_profile_with_langchain` for this link (each `none` models the
corresponding call failing and returning `None`). -/
structure LinkOracle where
  existsInDb : Bool
  scrapeResult : Option String
  analysisResult : Option RecruiterAnalysis
  deriving DecidableEq, Repr

/-- The per-link step of `main` (src/linkedin_agent/run_agent.py lines
215-248): check `profile_url_exists` and `continue` when found; scrape and
`continue` when the text is falsy (`None` or empty); analyze and `continue`
when the analysis is falsy; otherwise persist.  The surrounding
`try/except` makes any failure skip just this link. -/
def processLink (url : String) (o : LinkOracle) : List Event :=
  if o.existsInDb then [.existsCheck url true]
  else
    .existsCheck url false ::
      match o.scrapeResult with
      | none => [.fetch url none]
      | some text =>
        if text = "" then [.fetch url (some text)]
        else
          .fetch url (some text) ::
            match o.analysisResult with
            | none => [.analyze url none]
            | some a => [.analyze url (some a), .persist url]

/-- The `for url in profile_urls_on_page` loop: every link is processed,
each inside its own `try/except`, so no per-link outcome stops the loop. -/
def linkLoop (links : List (String × LinkOracle)) : List Event :=
  links.flatMap (fun x => processLink x.1 x.2)

/-- Oracle for one iteration of the page loop: the links found on the page
(with their per-link oracles) and the result of `click_next_page`. -/
structure PageOracle where
  links : List (String × LinkOracle)
  nextOk : Bool
  deriving DecidableEq, Repr

/-- One iteration of the `while True` page loop: extract the urls of the
current page, process each link, then call `click_next_page`. -/
def pageEvents (p : PageOracle) : List Event :=
  Event.extract (p.links.map Prod.fst) :: linkLoop p.links ++ [Event.nextPage p.nextOk]

/-- The `while True` page loop of `main` (src/linkedin_agent/run_agent.py
lines 204-254): process a page, then `break` when `click_next_page`
returned false, else move to the next page.  The oracle list is the
(bounded) sequence of pages the world can serve. -/
def runPages : List PageOracle → List Event
  | [] => []
  | p :: ps => pageEvents p ++ (if p.nextOk then runPages ps else [])

/-- Number of iterations the page loop performs on a given page sequence. -/
def pagesVisited : List PageOracle → Nat
  | [] => 0
  | p :: ps => 1 + (if p.nextOk then pagesVisited ps else 0)

/-- The world of oracle outcomes for one invocation of `main`:
`job_schedule` is what `get_job_schedule(job_name)` returned;
`current_time_ms` is `int(datetime.now().timestamp() * 1000)`;
`setupAttempt i` tells whether the `i`-th `setup_driver()` call succeeds
(false models it raising); `loginOk` and `searchOk` are the boolean results
of `_login_to_linkedin` and `search_for_people`; `pages` feeds the page
loop; `interruptAt = some k` models an unhandled exception escaping the
`try` body after `k` of its observable effects (caught by the outer
`except`, so the `finally` still runs); `cfg` is the environment
configuration visible to the process. -/
structure World where
  cfg : Config
  job_schedule : Option JobSchedule
  current_time_ms : Int
  setupAttempt : Nat → Bool
  loginOk : Bool
  searchOk : Bool
  pages : List PageOracle
  interruptAt : Option Nat

/-- Python truthiness of the `mission_parameters` dict: present and
non-empty. -/
def mcpPresent : Option Mcp → Bool
  | none => false
  | some m => !m.isEmpty

/-- `int(job_schedule.get('next_run_timestamp_ms') or 0)`. -/
def nextRunMs (js : JobSchedule) : Int :=
  match js.next_run_timestamp_ms with
  | none => 0
  | some v => v

/-- The driver-setup retry loop (`for attempt in range(3)`): call
`setup_driver` up to three times, stopping at the first success; on the
third failure `main` returns. -/
def setupTrace (a : Nat → Bool) : List Event :=
  if a 0 then [.driverSetup true]
  else if a 1 then [.driverSetup false, .driverSetup true]
  else if a 2 then [.driverSetup false, .driverSetup false, .driverSetup true]
  else [.driverSetup false, .driverSetup false, .driverSetup false]

/-- Whether a browser session was opened: some of the three setup attempts
succeeded. -/
def driverOpened (a : Nat → Bool) : Bool := a 0 || a 1 || a 2

/-- The body of the big `try` of `main`: abort after a failed login, abort
after a failed initial search, otherwise run the page loop. -/
def sessionBody (w : World) : List Event :=
  if w.loginOk then
    if w.searchOk then .login true :: .search true :: runPages w.pages
    else [.login true, .search false]
  else [.login false]

/-- The observable effects of the `try` body: all of them on a normal path,
or a prefix of them when an unhandled exception escapes the body after `k`
effects and is caught by the outer `except` clause. -/
def sessionEvents (w : World) : List Event :=
  match w.interruptAt with
  | none => sessionBody w
  | some k => (sessionBody w).take k

/-- `main` (src/linkedin_agent/run_agent.py lines 140-265) as a trace:
return with no effect when the job or its mission parameters are missing,
or when the job is not due yet; otherwise fetch the few-shot examples, run
the driver-setup retry loop, and if a driver was obtained run the session
body under `try/finally`, quitting the driver in the final cleanup. -/
def mainTrace (w : World) : List Event :=
  match w.job_schedule with
  | none => []
  | some js =>
    if mcpPresent js.mission_parameters then
      if w.current_time_ms < nextRunMs js then []
      else
        Event.fewShotFetch ::
          (if driverOpened w.setupAttempt then
            setupTrace w.setupAttempt ++ sessionEvents w ++ [Event.quit]
          else setupTrace w.setupAttempt)
    else []

/-! ## Helper lemmas about the table upsert -/

theorem mem_upsertRow {y r : RecruiterRecord} :
    ∀ {t : Table}, y ∈ upsertRow r t → y = r ∨ y ∈ t := by
  intro t
  induction t with
  | nil =>
    intro h
    simp only [upsertRow, List.mem_singleton] at h
    exact Or.inl h
  | cons x xs ih =>
    intro h
    simp only [upsertRow] at h
    by_cases hx : x.profile_url = r.profile_url
    · rw [if_pos hx] at h
      rcases List.mem_cons.mp h with h1 | h2
      · exact Or.inl h1
      · exact Or.inr (List.mem_cons_of_mem x h2)
    · rw [if_neg hx] at h
      rcases List.mem_cons.mp h with h1 | h2
      · exact Or.inr (h1 ▸ List.mem_cons_self x xs)
      · rcases ih h2 with h3 | h4
        · exact Or.inl h3
        · exact Or.inr (List.mem_cons_of_mem x h4)

theorem urlUnique_upsertRow (r : RecruiterRecord) {t : Table} (h : urlUnique t) :
    urlUnique (upsertRow r t) := by
  induction t with
  | nil => simp [upsertRow, urlUnique]
  | cons x xs ih =>
    simp only [urlUnique, List.pairwise_cons] at h
    obtain ⟨hx, hxs⟩ := h
    by_cases heq : x.profile_url = r.profile_url
    · simp only [urlUnique, upsertRow, if_pos heq, List.pairwise_cons]
      exact ⟨fun y hy => heq ▸ hx y hy, hxs⟩
    · simp only [urlUnique, upsertRow, if_neg heq, List.pairwise_cons]
      refine ⟨fun y hy => ?_, ih hxs⟩
      rcases mem_upsertRow hy with h1 | h2
      · exact h1 ▸ heq
      · exact hx y h2

theorem filter_upsertRow (r : RecruiterRecord) {t : Table} (h : urlUnique t) :
    (upsertRow r t).filter (fun x => x.profile_url == r.profile_url) = [r] := by
  induction t with
  | nil => simp [upsertRow]
  | cons x xs ih =>
    simp only [urlUnique, List.pairwise_cons] at h
    obtain ⟨hx, hxs⟩ := h
    by_cases heq : x.profile_url = r.profile_url
    · simp only [upsertRow, if_pos heq]
      have hnil : xs.filter (fun x => x.profile_url == r.profile_url) = [] := by
        rw [List.filter_eq_nil_iff]
        intro y hy
        simp only [beq_iff_eq]
        exact fun hyr => (hx y hy) (heq.trans hyr.symm)
      rw [List.filter_cons_of_pos (by simp), hnil]
    · simp only [upsertRow, if_neg heq]
      rw [List.filter_cons_of_neg (by simp [heq]), ih hxs]

/-- C2: for every profile url, upserting twice via `save_recruiter_analysis`
with different text/analysis leaves exactly one record keyed by that url, and
the record holds the text, mission-parameters snapshot and analysis of the
second (latest) write: persistence is last-write-wins on the unique key. -/
theorem upsert_last_write_wins (t : Table) (h : urlUnique t)
    (url text1 text2 : String) (m1 m2 : Mcp) (a1 a2 : AnalysisData) (n1 n2 : Nat) :
    ((save_recruiter_analysis url text2 m2 a2 n2 true
        (save_recruiter_analysis url text1 m1 a1 n1 true t).2).2.filter
      (fun x => x.profile_url == url)) =
      [{ profile_url := url, profile_text := text2, mcp_data := m2,
         analysis_data := a2, alignment_score := a2.alignment_score,
         created_at := n2 }] := by
  simp only [save_recruiter_analysis]
  exact filter_upsertRow
    { profile_url := url, profile_text := text2, mcp_data := m2,
      analysis_data := a2, alignment_score := a2.alignment_score,
      created_at := n2 }
    (urlUnique_upsertRow
      { profile_url := url, profile_text := text1, mcp_data := m1,
        analysis_data := a1, alignment_score := a1.alignment_score,
        created_at := n1 } h)

/-- Sample analysis dicts and analyses for concrete witnesses. -/
def aData1 : AnalysisData :=
  { summary := "s1", alignment_score := some 3, justification := "j1",
    recommendation := "Do Not Recommend" }

def aData2 : AnalysisData :=
  { summary := "s2", alignment_score := some 9, justification := "j2",
    recommendation := "Recommend" }

def sampleAnalysis : RecruiterAnalysis :=
  { summary := "s", alignment_score := 5, justification := "j",
    recommendation := "Recommend" }

/-- Witness for C2: two concrete upserts on the same url. -/
theorem upsert_last_write_wins_witness :
    ((save_recruiter_analysis "https://www.linkedin.com/in/a" "t2" [("location", "x")]
        aData2 2 true
        (save_recruiter_analysis "https://www.linkedin.com/in/a" "t1" []
          aData1 1 true []).2).2.filter
      (fun x => x.profile_url == "https://www.linkedin.com/in/a")) =
      [{ profile_url := "https://www.linkedin.com/in/a", profile_text := "t2",
         mcp_data := [("location", "x")], analysis_data := aData2,
         alignment_score := aData2.alignment_score, created_at := 2 }] :=
  upsert_last_write_wins [] List.Pairwise.nil "https://www.linkedin.com/in/a"
    "t1" "t2" [] [("location", "x")] aData1 aData2 1 2

/-- C10: when the underlying psql invocation fails (spawn error or nonzero
return code), `profile_url_exists` returns `false` rather than propagating
the error; consequently a link whose dedup check came back `false` during an
outage is fetched and analyzed again by the per-link step even though it was
already persisted. -/
theorem db_outage_reprocesses (msg : String) (rc : Int) (out err : String)
    (url text : String) (a : RecruiterAnalysis) (hrc : rc ≠ 0) (htext : text ≠ "") :
    profile_url_exists (.spawnError msg) = false ∧
    profile_url_exists (.completed rc out err) = false ∧
    Event.fetch url (some text) ∈
      processLink url ⟨false, some text, some a⟩ ∧
    Event.analyze url (some a) ∈
      processLink url ⟨false, some text, some a⟩ := by
  refine ⟨rfl, ?_, ?_, ?_⟩
  · simp [profile_url_exists, run_psql_command, hrc]
  · simp [processLink, htext]
  · simp [processLink, htext]

/-- Witness for C10: a concrete outage outcome and a concrete link. -/
theorem db_outage_reprocesses_witness :
    profile_url_exists (.spawnError "psql missing") = false ∧
    profile_url_exists (.completed 2 "t" "connection refused") = false ∧
    Event.fetch "https://www.linkedin.com/in/a" (some "text") ∈
      processLink "https://www.linkedin.com/in/a" ⟨false, some "text", some sampleAnalysis⟩ ∧
    Event.analyze "https://www.linkedin.com/in/a" (some sampleAnalysis) ∈
      processLink "https://www.linkedin.com/in/a" ⟨false, some "text", some sampleAnalysis⟩ :=
  db_outage_reprocesses "psql missing" 2 "t" "connection refused"
    "https://www.linkedin.com/in/a" "text" sampleAnalysis (by decide) (by decide)

/-- C1: for a url already present in the results table (the dedup check
`profile_url_exists` returned true), the per-link step of the orchestrator is
the bare dedup check and `continue`: it performs no fetch, no analysis and no
persistence for that url, so an already-persisted url is never reprocessed
within the run. -/
theorem dedup_skips_processed_url (url : String) (o : LinkOracle)
    (h : o.existsInDb = true) :
    processLink url o = [Event.existsCheck url true] ∧
    (∀ r, Event.fetch url r ∉ processLink url o) ∧
    (∀ r, Event.analyze url r ∉ processLink url o) ∧
    (∀ u, Event.persist u ∉ processLink url o) := by
  have he : processLink url o = [Event.existsCheck url true] := by
    simp [processLink, h]
  refine ⟨he, ?_, ?_, ?_⟩ <;> simp [he]

/-- Witness for C1: a concrete already-persisted link. -/
theorem dedup_skips_processed_url_witness :
    processLink "https://www.linkedin.com/in/b" ⟨true, none, none⟩ =
      [Event.existsCheck "https://www.linkedin.com/in/b" true] ∧
    (∀ r, Event.fetch "https://www.linkedin.com/in/b" r ∉
      processLink "https://www.linkedin.com/in/b" ⟨true, none, none⟩) ∧
    (∀ r, Event.analyze "https://www.linkedin.com/in/b" r ∉
      processLink "https://www.linkedin.com/in/b" ⟨true, none, none⟩) ∧
    (∀ u, Event.persist u ∉
      processLink "https://www.linkedin.com/in/b" ⟨true, none, none⟩) :=
  dedup_skips_processed_url "https://www.linkedin.com/in/b" ⟨true, none, none⟩ rfl

/-- C4: when the analysis invocation fails for a link
(`analyze_profile_with_langchain` returned `None`), the per-link step makes
no persistence call for that link, invokes the analysis exactly once (no
retry), and the link loop continues with the remaining links unchanged: the
run is not aborted. -/
theorem analysis_failure_skips_link (url : String) (o : LinkOracle) (text : String)
    (h1 : o.existsInDb = false) (h2 : o.scrapeResult = some text)
    (h3 : text ≠ "") (h4 : o.analysisResult = none) :
    (∀ u, Event.persist u ∉ processLink url o) ∧
    (processLink url o).count (Event.analyze url none) = 1 ∧
    (∀ pre post, linkLoop (pre ++ (url, o) :: post) =
      linkLoop pre ++ (processLink url o ++ linkLoop post)) := by
  have he : processLink url o =
      [Event.existsCheck url false, Event.fetch url (some text),
        Event.analyze url none] := by
    simp [processLink, h1, h2, h3, h4]
  refine ⟨by simp [he], by simp [he, List.count_cons], fun pre post => by
    simp [linkLoop]⟩

/-- Witness for C4: a concrete link whose analysis call failed, between two
other links. -/
theorem analysis_failure_skips_link_witness :
    (∀ u, Event.persist u ∉
      processLink "https://www.linkedin.com/in/c" ⟨false, some "txt", none⟩) ∧
    (processLink "https://www.linkedin.com/in/c" ⟨false, some "txt", none⟩).count
      (Event.analyze "https://www.linkedin.com/in/c" none) = 1 ∧
    (∀ pre post, linkLoop (pre ++ ("https://www.linkedin.com/in/c",
        (⟨false, some "txt", none⟩ : LinkOracle)) :: post) =
      linkLoop pre ++
        (processLink "https://www.linkedin.com/in/c" ⟨false, some "txt", none⟩ ++
          linkLoop post)) :=
  analysis_failure_skips_link "https://www.linkedin.com/in/c"
    ⟨false, some "txt", none⟩ "txt" rfl rfl (by decide) rfl

/-- C5: `scrape_full_profile_details` returns the visible text or `None`;
it returns `None` exactly when scraping failed (navigation or the wait for
the name heading timed out, or the name/headline element is missing), and a
failed fetch is non-fatal for the caller, whose per-link step skips the link
(no analysis, no persistence) and continues with the remaining links. -/
theorem scrape_failure_none_and_skipped (p : ProfilePage) (url : String)
    (o : LinkOracle) (h1 : o.existsInDb = false) (h2 : o.scrapeResult = none) :
    (scrape_full_profile_details p = none ↔
      (p.navOk = false ∨ p.h1 = none ∨ p.headline = none)) ∧
    processLink url o = [Event.existsCheck url false, Event.fetch url none] ∧
    (∀ r, Event.analyze url r ∉ processLink url o) ∧
    (∀ u, Event.persist u ∉ processLink url o) ∧
    (∀ pre post, linkLoop (pre ++ (url, o) :: post) =
      linkLoop pre ++ (processLink url o ++ linkLoop post)) := by
  have he : processLink url o = [Event.existsCheck url false, Event.fetch url none] := by
    simp [processLink, h1, h2]
  refine ⟨?_, he, by simp [he], by simp [he], fun pre post => by simp [linkLoop]⟩
  cases hnav : p.navOk
  · simp [scrape_full_profile_details, hnav]
  · cases hh1 : p.h1 <;> cases hhl : p.headline <;>
      simp [scrape_full_profile_details, hnav, hh1, hhl]

/-- Witness for C5: a page whose name heading never appeared, and the
corresponding skipped link. -/
theorem scrape_failure_none_and_skipped_witness :
    (scrape_full_profile_details ⟨true, none, some "Recruiter", none, none⟩ = none ↔
      ((⟨true, none, some "Recruiter", none, none⟩ : ProfilePage).navOk = false ∨
        (⟨true, none, some "Recruiter", none, none⟩ : ProfilePage).h1 = none ∨
        (⟨true, none, some "Recruiter", none, none⟩ : ProfilePage).headline = none)) ∧
    processLink "https://www.linkedin.com/in/d" ⟨false, none, none⟩ =
      [Event.existsCheck "https://www.linkedin.com/in/d" false,
        Event.fetch "https://www.linkedin.com/in/d" none] ∧
    (∀ r, Event.analyze "https://www.linkedin.com/in/d" r ∉
      processLink "https://www.linkedin.com/in/d" ⟨false, none, none⟩) ∧
    (∀ u, Event.persist u ∉
      processLink "https://www.linkedin.com/in/d" ⟨false, none, none⟩) ∧
    (∀ pre post, linkLoop (pre ++ ("https://www.linkedin.com/in/d",
        (⟨false, none, none⟩ : LinkOracle)) :: post) =
      linkLoop pre ++
        (processLink "https://www.linkedin.com/in/d" ⟨false, none, none⟩ ++
          linkLoop post)) :=
  scrape_failure_none_and_skipped ⟨true, none, some "Recruiter", none, none⟩
    "https://www.linkedin.com/in/d" ⟨false, none, none⟩ rfl rfl

/-- C7: the page loop terminates on a bounded result set: with `pre` pages on
which `click_next_page` still succeeds followed by the page on which it
returns false, the loop performs exactly `pre.length + 1` iterations — never
more than the number of available pages — and no page beyond the first false
`next_page` result is ever visited. -/
theorem page_loop_terminates (pre post : List PageOracle) (p : PageOracle)
    (hpre : ∀ q ∈ pre, q.nextOk = true) (hp : p.nextOk = false) :
    pagesVisited (pre ++ p :: post) = pre.length + 1 ∧
    pagesVisited (pre ++ p :: post) ≤ (pre ++ p :: post).length ∧
    runPages (pre ++ p :: post) = runPages (pre ++ [p]) := by
  induction pre with
  | nil => simp [pagesVisited, runPages, hp]
  | cons q qs ih =>
    have hq : q.nextOk = true := hpre q (List.mem_cons_self q qs)
    have ih2 := ih (fun r hr => hpre r (List.mem_cons_of_mem q hr))
    refine ⟨?_, ?_, ?_⟩
    · simp only [List.cons_append, pagesVisited, hq, List.append_eq, if_true,
        ih2.1, List.length_cons]
      omega
    · simp only [List.cons_append, pagesVisited, hq, List.append_eq, if_true,
        ih2.1, List.length_cons, List.length_append]
      omega
    · simp only [List.cons_append, runPages, hq, List.append_eq, if_true,
        ih2.2.2]

/-- A page on which `click_next_page` still succeeds. -/
def pgT : PageOracle := ⟨[], true⟩

/-- A page on which `click_next_page` reports the last page. -/
def pgF : PageOracle := ⟨[], false⟩

/-- Witness for C7: three available pages with the false `next_page` signal
on the second: two iterations, bounded by three. -/
theorem page_loop_terminates_witness :
    pagesVisited ([pgT] ++ pgF :: [pgT]) = 2 ∧
    pagesVisited ([pgT] ++ pgF :: [pgT]) ≤ ([pgT] ++ pgF :: [pgT]).length ∧
    runPages ([pgT] ++ pgF :: [pgT]) = runPages ([pgT] ++ [pgF]) :=
  page_loop_terminates [pgT] [pgT] pgF
    (by intro q hq; simp at hq; rw [hq]; rfl) rfl

/-! ## Helper lemmas for the teardown claim: no part of the session body
emits the `quit` effect, which only the final cleanup produces. -/

theorem quit_not_mem_processLink (url : String) (o : LinkOracle) :
    Event.quit ∉ processLink url o := by
  obtain ⟨e, s, a⟩ := o
  cases e
  · cases s with
    | none => simp [processLink]
    | some text =>
      by_cases ht : text = ""
      · simp [processLink, ht]
      · cases a <;> simp [processLink, ht]
  · simp [processLink]

theorem quit_not_mem_linkLoop (links : List (String × LinkOracle)) :
    Event.quit ∉ linkLoop links := by
  intro h
  rw [linkLoop, List.mem_flatMap] at h
  obtain ⟨x, _, hq⟩ := h
  exact quit_not_mem_processLink x.1 x.2 hq

theorem quit_not_mem_runPages (ps : List PageOracle) :
    Event.quit ∉ runPages ps := by
  induction ps with
  | nil => simp [runPages]
  | cons p ps ih =>
    intro h
    rw [runPages] at h
    rcases List.mem_append.mp h with h1 | h2
    · rw [pageEvents] at h1
      rcases List.mem_cons.mp h1 with he | h3
      · exact absurd he (by simp)
      · rcases List.mem_append.mp h3 with h4 | h5
        · exact quit_not_mem_linkLoop _ h4
        · simp at h5
    · cases hn : p.nextOk
      · rw [hn] at h2; simp at h2
      · rw [hn] at h2; exact ih (by simpa using h2)

theorem quit_not_mem_sessionEvents (w : World) :
    Event.quit ∉ sessionEvents w := by
  have hbody : Event.quit ∉ sessionBody w := by
    rw [sessionBody]
    cases hl : w.loginOk
    · simp
    · cases hs : w.searchOk
      · simp
      · intro h
        simp only [if_pos] at h
        rcases List.mem_cons.mp h with h1 | h2
        · exact absurd h1 (by simp)
        · rcases List.mem_cons.mp h2 with h3 | h4
          · exact absurd h3 (by simp)
          · exact quit_not_mem_runPages _ h4
  rw [sessionEvents]
  cases w.interruptAt with
  | none => exact hbody
  | some k => exact fun h => hbody (List.take_subset k _ h)

theorem quit_not_mem_setupTrace (a : Nat → Bool) :
    Event.quit ∉ setupTrace a := by
  rw [setupTrace]
  cases a 0 <;> cases a 1 <;> cases a 2 <;> simp

/-- Under a loaded, due schedule and a successful driver setup, the trace of
`main` is the few-shot fetch, the setup attempts, the session body (possibly
truncated by an unhandled exception) and the final quit. -/
theorem mainTrace_opened (w : World) (js : JobSchedule)
    (h1 : w.job_schedule = some js) (h2 : mcpPresent js.mission_parameters = true)
    (h3 : ¬ w.current_time_ms < nextRunMs js)
    (h4 : driverOpened w.setupAttempt = true) :
    mainTrace w = Event.fewShotFetch ::
      (setupTrace w.setupAttempt ++ sessionEvents w ++ [Event.quit]) := by
  simp only [mainTrace, h1, h2, h4, if_neg h3, if_true]

/-- When some of the three setup attempts succeeds, the setup portion of the
trace records a successful driver setup. -/
theorem driverSetup_true_mem_setupTrace (a : Nat → Bool)
    (h : driverOpened a = true) :
    Event.driverSetup true ∈ setupTrace a := by
  rw [driverOpened] at h
  rw [setupTrace]
  cases h0 : a 0 <;> cases h1 : a 1 <;> cases h2 : a 2 <;>
    simp [h0, h1, h2] at h ⊢

/-- C3: on every execution path on which a browser session was opened —
normal completion, login failure, search failure, or an unhandled exception
escaping any later step of the session body — the cleanup closes the session
(`driver.quit`) exactly once, as the final step of the run. -/
theorem session_closed_exactly_once (w : World) (js : JobSchedule)
    (h1 : w.job_schedule = some js) (h2 : mcpPresent js.mission_parameters = true)
    (h3 : ¬ w.current_time_ms < nextRunMs js)
    (h4 : driverOpened w.setupAttempt = true) :
    (mainTrace w).count Event.quit = 1 ∧
    (mainTrace w).getLast? = some Event.quit := by
  have htrace := mainTrace_opened w js h1 h2 h3 h4
  constructor
  · rw [htrace]
    simp [List.count_cons, List.count_append,
      List.count_eq_zero.mpr (quit_not_mem_setupTrace w.setupAttempt),
      List.count_eq_zero.mpr (quit_not_mem_sessionEvents w)]
  · rw [htrace, ← List.cons_append]
    exact List.getLast?_concat _

/-! ## Concrete schedules, configurations and worlds for the witnesses -/

/-- A schedule that is due (next run in the past relative to the witness
worlds) with mission parameters present. -/
def jsDue : JobSchedule :=
  { job_name := "linkedin_recruiter_search", is_active := "t",
    last_run_status := "", last_run_message := "", created_at := "",
    updated_at := "", next_run_timestamp_ms := some 100,
    mission_parameters := some [("search_query", "Technical Recruiter")] }

/-- A schedule whose next run lies in the future relative to the witness
worlds. -/
def jsFuture : JobSchedule :=
  { job_name := "linkedin_recruiter_search", is_active := "t",
    last_run_status := "", last_run_message := "", created_at := "",
    updated_at := "", next_run_timestamp_ms := some 1000,
    mission_parameters := some [("search_query", "Technical Recruiter")] }

/-- A complete credential configuration. -/
def cfgAll : Config :=
  { linkedin_username := some "user", linkedin_password := some "pw",
    db_host := "localhost", db_user := some "rubeng",
    db_name := some "rubeng", db_password := "" }

/-- A configuration with the LinkedIn username missing. -/
def cfgNoUser : Config :=
  { linkedin_username := none, linkedin_password := some "pw",
    db_host := "localhost", db_user := some "rubeng",
    db_name := some "rubeng", db_password := "" }

/-- A due run whose driver setup succeeds and whose login fails. -/
def wOpened : World :=
  { cfg := cfgAll, job_schedule := some jsDue, current_time_ms := 200,
    setupAttempt := fun _ => true, loginOk := false, searchOk := true,
    pages := [], interruptAt := none }

/-- A run whose schedule lies in the future. -/
def wFuture : World :=
  { cfg := cfgAll, job_schedule := some jsFuture, current_time_ms := 200,
    setupAttempt := fun _ => true, loginOk := true, searchOk := true,
    pages := [], interruptAt := none }

/-- A due run with the LinkedIn username missing from the environment;
the login step fails, as it must without credentials, but only after the
driver was set up. -/
def wNoUser : World :=
  { cfg := cfgNoUser, job_schedule := some jsDue, current_time_ms := 200,
    setupAttempt := fun _ => true, loginOk := false, searchOk := true,
    pages := [], interruptAt := none }

/-- Witness for C3: a concrete opened session (failed login path) is closed
exactly once, at the end. -/
theorem session_closed_exactly_once_witness :
    (mainTrace wOpened).count Event.quit = 1 ∧
    (mainTrace wOpened).getLast? = some Event.quit :=
  session_closed_exactly_once wOpened jsDue rfl rfl (by decide) rfl

/-- C8: when the loaded job schedule has `next_run_timestamp_ms` strictly in
the future, `main` returns right after the schedule check: the run performs
no effect at all — no browser session is opened, no search is issued, no
persistence occurs. -/
theorem future_schedule_exits_immediately (w : World) (js : JobSchedule)
    (h1 : w.job_schedule = some js)
    (h2 : w.current_time_ms < nextRunMs js) :
    mainTrace w = [] := by
  simp only [mainTrace, h1]
  by_cases hm : mcpPresent js.mission_parameters <;> simp [hm, h2]

/-- Witness for C8: a concrete schedule 800 ms in the future yields the
empty trace. -/
theorem future_schedule_exits_immediately_witness :
    mainTrace wFuture = [] :=
  future_schedule_exits_immediately wFuture jsFuture rfl (by decide)

/-- C6 counterexample: a run with the LinkedIn username missing from the
environment still performs browser work — the driver is set up — refuting
the claim that a missing credential aborts the run with a configuration
error before any browser work begins. -/
theorem missing_credentials_still_open_browser :
    envMissing wNoUser.cfg.linkedin_username = true ∧
    Event.driverSetup true ∈ mainTrace wNoUser := by
  exact ⟨rfl, by decide⟩

/-- C6 (amended): `get_checked_config` does raise a configuration error
whenever a required credential is missing, but the orchestrator never calls
it: the trace of `main` is entirely independent of the credential
configuration, and a due run with a working driver sets up the browser even
when a required credential is missing, failing only later at login. -/
theorem config_check_never_reached (c : Config) (w : World) (js : JobSchedule)
    (hc : envMissing c.linkedin_username = true ∨
      envMissing c.linkedin_password = true ∨
      envMissing c.db_user = true ∨ envMissing c.db_name = true)
    (h1 : w.job_schedule = some js) (h2 : mcpPresent js.mission_parameters = true)
    (h3 : ¬ w.current_time_ms < nextRunMs js)
    (h4 : driverOpened w.setupAttempt = true) :
    (∃ msg, get_checked_config c = .error msg) ∧
    Event.driverSetup true ∈ mainTrace w ∧
    mainTrace { w with cfg := c } = mainTrace w := by
  refine ⟨?_, ?_, ?_⟩
  · rw [get_checked_config]
    by_cases hli : (envMissing c.linkedin_username ||
        envMissing c.linkedin_password) = true
    · rw [if_pos hli]
      exact ⟨_, rfl⟩
    · rw [if_neg hli]
      have hdb : (envMissing c.db_user || envMissing c.db_name) = true := by
        rcases hc with h | h | h | h
        · exact absurd (by simp [h]) hli
        · exact absurd (by simp [h]) hli
        · simp [h]
        · simp [h]
      rw [if_pos hdb]
      exact ⟨_, rfl⟩
  · rw [mainTrace_opened w js h1 h2 h3 h4]
    exact List.mem_cons_of_mem _ (List.mem_append.mpr (Or.inl
      (List.mem_append.mpr (Or.inl (driverSetup_true_mem_setupTrace _ h4)))))
  · rfl

/-- Witness for C6 (amended), at the concrete credential-less world. -/
theorem config_check_never_reached_witness :
    (∃ msg, get_checked_config cfgNoUser = .error msg) ∧
    Event.driverSetup true ∈ mainTrace wNoUser ∧
    mainTrace { wNoUser with cfg := cfgNoUser } = mainTrace wNoUser :=
  config_check_never_reached cfgNoUser wNoUser jsDue (Or.inl rfl) rfl rfl
    (by decide) rfl

/-! ## Helper lemmas for link extraction -/

theorem mem_addUrl {u : String} {acc : List String} {item : Option String}
    (h : u ∈ addUrl acc item) :
    u ∈ acc ∨ ∃ href, item = some href ∧ u = stripQuery href := by
  cases item with
  | none => exact Or.inl h
  | some href =>
    simp only [addUrl] at h
    by_cases hmem : stripQuery href ∈ acc
    · rw [if_pos hmem] at h
      exact Or.inl h
    · rw [if_neg hmem] at h
      rcases List.mem_append.mp h with h1 | h2
      · exact Or.inl h1
      · exact Or.inr ⟨href, rfl, List.mem_singleton.mp h2⟩

theorem nodup_addUrl {acc : List String} {item : Option String}
    (h : acc.Nodup) : (addUrl acc item).Nodup := by
  cases item with
  | none => exact h
  | some href =>
    simp only [addUrl]
    by_cases hmem : stripQuery href ∈ acc
    · rw [if_pos hmem]; exact h
    · rw [if_neg hmem]
      simp [List.nodup_append, h, hmem]

theorem nodup_foldl_addUrl (items : List (Option String)) :
    ∀ acc : List String, acc.Nodup → (items.foldl addUrl acc).Nodup := by
  induction items with
  | nil => exact fun acc h => h
  | cons it its ih => exact fun acc h => ih _ (nodup_addUrl h)

theorem mem_foldl_addUrl {u : String} (items : List (Option String)) :
    ∀ acc : List String, u ∈ items.foldl addUrl acc →
      u ∈ acc ∨ ∃ href, (some href) ∈ items ∧ u = stripQuery href := by
  induction items with
  | nil => exact fun acc h => Or.inl h
  | cons it its ih =>
    intro acc h
    rcases ih _ h with h1 | ⟨href, hmem, heq⟩
    · rcases mem_addUrl h1 with h2 | ⟨href, hit, heq⟩
      · exact Or.inl h2
      · refine Or.inr ⟨href, ?_, heq⟩
        rw [← hit]
        exact List.mem_cons_self it its
    · exact Or.inr ⟨href, List.mem_cons_of_mem it hmem, heq⟩

/-- C9 (amended): `extract_urls_from_current_page` never returns duplicates,
an empty result is an ordinary value (extraction failure and the empty page
both give `[]`), and every returned url is an anchor href that contained
`/in/`, truncated at its first `?`; whenever each collected href still
contains `/in/` after the truncation, every returned url is a profile link.
(Unamended, the claim fails: the `/in/` may lie entirely inside the query
string, so the truncated url need not be a profile link — see the
counterexample.) -/
theorem extract_links_dedup_and_provenance :
    (∀ page, (extract_urls_from_current_page page).Nodup) ∧
    extract_urls_from_current_page none = [] ∧
    extract_urls_from_current_page (some []) = [] ∧
    (∀ items u, u ∈ extract_urls_from_current_page (some items) →
      ∃ href, (some href) ∈ items ∧ u = stripQuery href) ∧
    (∀ items u,
      (∀ href ∈ items.filterMap id, isProfileHref (stripQuery href) = true) →
      u ∈ extract_urls_from_current_page (some items) →
      isProfileHref u = true) := by
  refine ⟨?_, rfl, rfl, ?_, ?_⟩
  · intro page
    cases page with
    | none => simp [extract_urls_from_current_page]
    | some items => exact nodup_foldl_addUrl items [] List.nodup_nil
  · intro items u h
    rcases mem_foldl_addUrl items [] h with h1 | h2
    · simp at h1
    · exact h2
  · intro items u hall h
    rcases mem_foldl_addUrl items [] h with h1 | ⟨href, hmem, heq⟩
    · simp at h1
    · rw [heq]
      refine hall href ?_
      rw [List.mem_filterMap]
      exact ⟨some href, hmem, rfl⟩

/-- A fixture page: two hrefs of the same profile differing only in the
query string, a result element without a profile anchor, and a second
profile. -/
def goodPage : List (Option String) :=
  [some "https://www.linkedin.com/in/alice?miniProfile=1", none,
    some "https://www.linkedin.com/in/alice?other=2",
    some "https://www.linkedin.com/in/bob"]

/-- Witness for C9 (amended) on the fixture page. -/
theorem extract_links_dedup_and_provenance_witness :
    (extract_urls_from_current_page (some goodPage)).Nodup ∧
    (∃ href, (some href) ∈ goodPage ∧
      "https://www.linkedin.com/in/alice" = stripQuery href) ∧
    isProfileHref "https://www.linkedin.com/in/alice" = true :=
  ⟨extract_links_dedup_and_provenance.1 (some goodPage),
    extract_links_dedup_and_provenance.2.2.2.1 goodPage
      "https://www.linkedin.com/in/alice" (by decide),
    extract_links_dedup_and_provenance.2.2.2.2 goodPage
      "https://www.linkedin.com/in/alice" (by decide) (by decide)⟩

/-- C9 counterexample: an anchor href passing the `/in/` XPath filter only
through its query string; after `split('?')[0]` the returned url no longer
contains `/in/`, so the extraction yields a malformed (non-profile) link. -/
theorem extract_links_counterexample :
    extract_urls_from_current_page
        (some [some "https://www.linkedin.com/feed?trk=/in/x"]) =
      ["https://www.linkedin.com/feed"] ∧
    isProfileHref "https://www.linkedin.com/feed?trk=/in/x" = true ∧
    isProfileHref "https://www.linkedin.com/feed" = false := by
  refine ⟨by decide, by decide, by decide⟩

end LinkedInScraper
